import Mathlib

/-!
Shallow embedding of the ChatTube RAG service (`app/rag_service.py`,
`app/main.py`).  External collaborators (YouTube transcript provider,
OpenAI embeddings / LLM, FAISS, the langchain text splitter) are modelled
as oracles supplied through an `Env`; the repository's own control flow
(`RAGService.fetch_transcript`, `process_transcript`, `create_vector_store`,
`_setup_chain`, `process_video`, `ask_question`, `is_ready` and the `/chat`
route) is translated statement by statement.
-/

namespace ChatTube

/-- A caption snippet as returned by the transcription provider
(`trans_list.snippets`); the code only reads its `text` field. -/
structure Snippet where
  text : String
deriving DecidableEq, Repr

/-- Outcome of the single provider call
`YouTubeTranscriptApi().fetch(video_id, languages=['en'])`:
either the snippet list, the `TranscriptsDisabled` exception, or any other
provider exception carrying a message. -/
inductive ProviderResult where
  | snippets (l : List Snippet)
  | disabled
  | failure (msg : String)
deriving DecidableEq, Repr

/-- A langchain `Document`; the service only ever uses `page_content`. -/
structure Document where
  page_content : String
deriving DecidableEq, Repr

/-- The FAISS vector store, modelled by the list of documents it indexes
(in insertion order); the embedding vectors themselves stay inside the
oracle `Env.score`. -/
structure VectorStore where
  docs : List Document
deriving DecidableEq, Repr

/-- Model of `vector_store.as_retriever(search_type="similarity", search_kwargs={"k": 2})`:
a retriever bound to one vector store with a fixed `k`. -/
structure Retriever where
  vector_store : VectorStore
  k : Nat
deriving DecidableEq, Repr

/-- The composed runnable `parallel_chain | prompt | llm | StrOutputParser()`;
its only free datum is the retriever it was built around (the prompt is the
fixed template, the llm lives in `Env`). -/
structure Chain where
  retriever : Retriever
deriving DecidableEq, Repr

/-- The mutable fields of `RAGService` that ingestion and querying touch. -/
structure RAGState where
  vector_store : Option VectorStore
  retriever : Option Retriever
  chain : Option Chain
  current_video_id : Option String
deriving DecidableEq, Repr

/-- The environment of external services: the transcript provider, the
embedding/index build step (`FAISS.from_documents`, which may fail), the
similarity score the index assigns to a (question, passage) pair, and the
generation model (which may fail). -/
structure Env where
  providerFetch : String → ProviderResult
  embedBuild : List Document → Except String Unit
  score : String → String → Int
  llm : String → Except String String

/-- State right after `RAGService.__init__`: all four mutable fields `None`. -/
def init_state : RAGState :=
  { vector_store := none, retriever := none, chain := none,
    current_video_id := none }

/-- Model of `RAGService.fetch_transcript`: one provider call; snippet texts joined
with single spaces on success; `TranscriptsDisabled` is translated to the
fixed message, any other provider failure is wrapped with
`"Failed to fetch transcript: "` and the provider's message. -/
def fetch_transcript (env : Env) (video_id : String) : Except String String :=
  match env.providerFetch video_id with
  | .snippets l => .ok (String.intercalate " " (l.map Snippet.text))
  | .disabled => .error "Transcripts are disabled for this video"
  | .failure msg => .error ("Failed to fetch transcript: " ++ msg)

/-- Modelled from the spec: the chunker is langchain's
`RecursiveCharacterTextSplitter(chunk_size=1000, chunk_overlap=200)`, whose
code is not part of this repository.  Spec §4.2: consecutive windows of up
to 1000 characters, each window after the first overlapping the previous by
up to 200 characters (so the step is 800), the final window possibly
shorter; empty input yields an empty sequence. -/
def windowsGo (fuel : Nat) (cs : List Char) : List (List Char) :=
  match fuel with
  | 0 => [cs]
  | fuel + 1 =>
    if cs.length ≤ 1000 then [cs]
    else cs.take 1000 :: windowsGo fuel (cs.drop 800)

/-- Modelled from the spec: the window recursion of §4.2 run with enough
fuel (each step removes 800 characters, so `cs.length` steps always
suffice). -/
def windows (cs : List Char) : List (List Char) :=
  windowsGo cs.length cs

/-- Modelled from the spec: `split` of §4.2 (empty input → empty sequence,
otherwise the overlapping windows of `windows`). -/
def split_text (t : String) : List String :=
  if t.toList.length = 0 then []
  else (windows t.toList).map String.mk

/-- Model of `RAGService.process_transcript`: `text_splitter.create_documents([text])`,
one `Document` per produced window. -/
def process_transcript (transcript_text : String) : List Document :=
  (split_text transcript_text).map (fun s => { page_content := s })

/-- Stable descending insertion by score: an element is placed after every
already-ranked element of greater-or-equal score, so equal scores keep
insertion order (spec §4.3 tie-break: earliest passage wins). -/
def insertByScore (p : Int × Document) :
    List (Int × Document) → List (Int × Document)
  | [] => [p]
  | q :: rest => if p.1 ≤ q.1 then q :: insertByScore p rest else p :: q :: rest

/-- Rank all scored passages, best score first, ties by insertion order. -/
def rankDocs (scored : List (Int × Document)) : List (Int × Document) :=
  scored.foldl (fun acc p => insertByScore p acc) []

/-- Modelled from the spec: FAISS's similarity search is external code;
spec §4.3 `query(questionVector, k)` returns the `k` passages with the
highest similarity, nearest first, ties broken by insertion order. -/
def similarity_search (score : String → Int) (docs : List Document)
    (k : Nat) : List Document :=
  ((rankDocs (docs.map (fun d => (score d.page_content, d)))).map
    Prod.snd).take k

/-- Model of `self.vector_store.as_retriever(search_type="similarity",
search_kwargs={"k": 2})`. -/
def as_retriever (vs : VectorStore) : Retriever :=
  { vector_store := vs, k := 2 }

/-- Model of `RAGService._setup_chain`: builds the runnable chain around
`self.retriever` and assigns `self.chain`. -/
def setup_chain (s : RAGState) : RAGState :=
  match s.retriever with
  | some r => { s with chain := some { retriever := r } }
  | none => s

/-- Model of `RAGService.create_vector_store`: `FAISS.from_documents` (the fallible
embedding/index build), then the three successive field assignments
`self.vector_store`, `self.retriever`, and (via `_setup_chain`)
`self.chain`.  A build failure re-raises with the wrapping prefix and
leaves the state untouched. -/
def create_vector_store (env : Env) (s : RAGState)
    (chunks : List Document) : Except String RAGState :=
  match env.embedBuild chunks with
  | .error e => .error ("Failed to create vector store: " ++ e)
  | .ok _ =>
    let s1 := { s with vector_store := some { docs := chunks } }
    let s2 := { s1 with retriever := s1.vector_store.map as_retriever }
    .ok (setup_chain s2)

/-- The sequence of session states observable after each of the three field
assignments performed by a successful `create_vector_store` call
(`self.vector_store = ...`, then `self.retriever = ...`, then
`self.chain = ...` inside `_setup_chain`). -/
def ingestionWriteStates (s : RAGState) (chunks : List Document) :
    List RAGState :=
  let s1 := { s with vector_store := some { docs := chunks } }
  let s2 := { s1 with retriever := s1.vector_store.map as_retriever }
  let s3 := setup_chain s2
  [s1, s2, s3]

/-- The result dict of a successful `process_video`. -/
structure ProcessResult where
  message : String
  video_id : String
  chunks_count : Nat
  transcript_length : Nat
deriving DecidableEq, Repr

/-- Model of `RAGService.process_video`: fetch, chunk, build, then set
`self.current_video_id` and return the result dict.  The pair returned is
(session state afterwards, outcome); any exception propagates (`raise`)
with the state as the failing step left it. -/
def process_video (env : Env) (s : RAGState) (video_id : String) :
    RAGState × Except String ProcessResult :=
  match fetch_transcript env video_id with
  | .error e => (s, .error e)
  | .ok transcript_text =>
    let chunks := process_transcript transcript_text
    match create_vector_store env s chunks with
    | .error e => (s, .error e)
    | .ok s1 =>
      let s2 := { s1 with current_video_id := some video_id }
      (s2, .ok { message := "Video processed successfully",
                 video_id := video_id,
                 chunks_count := chunks.length,
                 transcript_length := transcript_text.length })

/-- Model of `RAGService.is_ready`: `self.chain is not None and
self.current_video_id is not None`. -/
def is_ready (s : RAGState) : Bool :=
  s.chain.isSome && s.current_video_id.isSome

/-- Model of `format_docs` inside `_setup_chain`: page contents joined with a
blank-line separator, preserving retrieval order. -/
def format_docs (retrieved_docs : List Document) : String :=
  String.intercalate "\n\n" (retrieved_docs.map Document.page_content)

/-- The fixed `PromptTemplate` of `RAGService.__init__` with `context` and
`question` substituted. -/
def prompt_format (context question : String) : String :=
  "\n            You are a helpful assistant. Answer ONLY from the provided transcript context. \n            If the context is insufficient to answer the query, just say you don't know.\n            \n            Context: " ++ context ++
  "\n            Question: " ++ question ++
  "\n            \n            Answer:\n            "

/-- Model of `StrOutputParser`: the model's text output passes through unmodified. -/
def str_output_parse (s : String) : String := s

/-- Model of `chain.invoke(question)`: the parallel branch computes
`context := format_docs (retriever question)` and passes the question
through; then prompt, llm, output parsing. -/
def invoke (env : Env) (c : Chain) (question : String) :
    Except String String :=
  let retrieved := similarity_search (env.score question)
    c.retriever.vector_store.docs c.retriever.k
  let context := format_docs retrieved
  match env.llm (prompt_format context question) with
  | .ok t => .ok (str_output_parse t)
  | .error e => .error e

/-- Model of `RAGService.ask_question`: raises when no chain exists, otherwise
invokes the chain; every exception is re-wrapped with
`"Failed to answer question: "`. -/
def ask_question (env : Env) (s : RAGState) (question : String) :
    Except String String :=
  match s.chain with
  | none => .error ("Failed to answer question: " ++
      "No video has been processed yet. Please process a video first.")
  | some c =>
    match invoke env c question with
    | .ok a => .ok a
    | .error e => .error ("Failed to answer question: " ++ e)

/-- The `/chat` route of `app/main.py`: readiness is checked first and a
400 with the fixed detail is returned while not ready; a success answers
with 200; any exception out of `ask_question` becomes a 500 whose detail
wraps the message.  The result is (HTTP status code, body). -/
def chat (env : Env) (s : RAGState) (question : String) : Nat × String :=
  if is_ready s = false then
    (400, "No video has been processed yet. Please process a video first using /process-video endpoint.")
  else
    match ask_question env s question with
    | .ok answer => (200, answer)
    | .error e => (500, "Failed to process question: " ++ e)

/-- Folding a list of ingestion requests from a start state, tracking the
session state and whether any `process_video` call has succeeded so far. -/
def run_ingestions (env : Env) (start : RAGState × Bool)
    (vids : List String) : RAGState × Bool :=
  vids.foldl (fun acc v =>
    let r := process_video env acc.1 v
    (r.1, acc.2 || r.2.isOk)) start

/-- The documents the current chain's retriever reads for a question: the
observable retrieval of `ask_question` in the ready state. -/
def retrieved_docs (env : Env) (s : RAGState) (question : String) :
    List Document :=
  match s.chain with
  | none => []
  | some c => similarity_search (env.score question)
      c.retriever.vector_store.docs c.retriever.k

/-! Concrete environments used by the witnesses. -/

/-- An environment where every external call succeeds: each video's
transcript is a single snippet holding the video id, the index build
succeeds, and the generation model returns a fixed answer. -/
def env_ok : Env :=
  { providerFetch := fun v => .snippets [{ text := v }]
  , embedBuild := fun _ => .ok ()
  , score := fun _ _ => 0
  , llm := fun _ => .ok "answer" }

/-- An environment whose provider reports captions disabled. -/
def env_disabled : Env :=
  { env_ok with providerFetch := fun _ => .disabled }

/-- An environment whose provider fails with a generic error. -/
def env_provider_fail : Env :=
  { env_ok with providerFetch := fun _ => .failure "no element found" }

/-- An environment whose embedding/index build always fails. -/
def env_embed_fail : Env :=
  { env_ok with embedBuild := fun _ => .error "embedding backend down" }

/-- An environment returning two snippets for every video. -/
def env_two : Env :=
  { env_ok with
    providerFetch :=
      fun _ => ProviderResult.snippets [{ text := "hello" }, { text := "world" }] }

/-- Session state after a successful ingestion of a video `"A"` whose only
chunk is `"alpha"`: a fully-populated pre-state for the write-sequence
counterexample. -/
def stateA : RAGState :=
  { vector_store := some { docs := [{ page_content := "alpha" }] }
  , retriever := some (as_retriever { docs := [{ page_content := "alpha" }] })
  , chain := some { retriever := as_retriever { docs := [{ page_content := "alpha" }] } }
  , current_video_id := some "A" }

/-- The chunks of the second video in the write-sequence counterexample. -/
def chunksB : List Document := [{ page_content := "beta" }]

/-- The state observable right after the first of the three field
assignments (`self.vector_store = ...`) when ingesting `chunksB` from
`stateA`: new vector store, old retriever, old chain. -/
def midB : RAGState := { stateA with vector_store := some { docs := chunksB } }

/-- The state after all three field assignments of that ingestion. -/
def postB : RAGState :=
  { stateA with
    vector_store := some { docs := chunksB }
    retriever := some (as_retriever { docs := chunksB })
    chain := some { retriever := as_retriever { docs := chunksB } } }

/-- The session state after `process_video env_ok init_state "A"`. -/
def sA_w : RAGState :=
  { vector_store := some { docs := [{ page_content := "A" }] }
  , retriever := some (as_retriever { docs := [{ page_content := "A" }] })
  , chain := some { retriever := as_retriever { docs := [{ page_content := "A" }] } }
  , current_video_id := some "A" }

/-- The session state after then running `process_video env_ok sA_w "B"`. -/
def sB_w : RAGState :=
  { vector_store := some { docs := [{ page_content := "B" }] }
  , retriever := some (as_retriever { docs := [{ page_content := "B" }] })
  , chain := some { retriever := as_retriever { docs := [{ page_content := "B" }] } }
  , current_video_id := some "B" }

/-- The result of the successful ingestion of video `"A"` under `env_ok`. -/
def rA_w : ProcessResult :=
  { message := "Video processed successfully", video_id := "A",
    chunks_count := 1, transcript_length := 1 }

/-- The result of the successful ingestion of video `"B"` under `env_ok`. -/
def rB_w : ProcessResult :=
  { message := "Video processed successfully", video_id := "B",
    chunks_count := 1, transcript_length := 1 }

/-- The session state after `process_video env_two init_state "xyz"`. -/
def sHW : RAGState :=
  { vector_store := some { docs := [{ page_content := "hello world" }] }
  , retriever := some (as_retriever { docs := [{ page_content := "hello world" }] })
  , chain := some { retriever := as_retriever { docs := [{ page_content := "hello world" }] } }
  , current_video_id := some "xyz" }

/-- The result of the successful ingestion of `"xyz"` under `env_two`. -/
def rHW : ProcessResult :=
  { message := "Video processed successfully", video_id := "xyz",
    chunks_count := 1, transcript_length := 11 }

/-! Helper lemmas about the embedded operations. -/

/-- A failed `process_video` call leaves the session state exactly as it
was: both failure points (the provider fetch and the embedding/index
build) occur before any field assignment. -/
theorem process_video_fail_eq (env : Env) (s : RAGState) (vid : String)
    (h : (process_video env s vid).2.isOk = false) :
    (process_video env s vid).1 = s := by
  cases hf : fetch_transcript env vid with
  | error e => simp [process_video, hf]
  | ok t =>
    cases hb : env.embedBuild (process_transcript t) with
    | error e => simp [process_video, create_vector_store, hf, hb]
    | ok u =>
      exfalso
      simp [process_video, create_vector_store, hf, hb,
        Except.isOk, Except.toBool] at h

/-- A successful `process_video` call fully determines the resulting
session state and result from the fetched transcript. -/
theorem process_video_ok_state (env : Env) (s s1 : RAGState) (vid : String)
    (r : ProcessResult) (h : process_video env s vid = (s1, .ok r)) :
    ∃ t, fetch_transcript env vid = .ok t ∧
      env.embedBuild (process_transcript t) = .ok () ∧
      s1 = { vector_store := some { docs := process_transcript t },
             retriever := some (as_retriever { docs := process_transcript t }),
             chain := some { retriever := as_retriever { docs := process_transcript t } },
             current_video_id := some vid } ∧
      r = { message := "Video processed successfully", video_id := vid,
            chunks_count := (process_transcript t).length,
            transcript_length := t.length } := by
  cases hf : fetch_transcript env vid with
  | error e => simp [process_video, hf] at h
  | ok t =>
    cases hb : env.embedBuild (process_transcript t) with
    | error e => simp [process_video, create_vector_store, hf, hb] at h
    | ok u =>
      cases u
      simp only [process_video, create_vector_store, setup_chain, hf, hb,
        Option.map, as_retriever, Prod.mk.injEq, Except.ok.injEq] at h
      exact ⟨t, rfl, hb, h.1.symm, h.2.symm⟩

/-- Readiness after an ingestion attempt: unchanged on failure, `true` on
success. -/
theorem is_ready_after_process (env : Env) (s : RAGState) (vid : String) :
    is_ready (process_video env s vid).1 =
      (is_ready s || (process_video env s vid).2.isOk) := by
  cases hf : fetch_transcript env vid with
  | error e => simp [process_video, hf, Except.isOk, Except.toBool]
  | ok t =>
    cases hb : env.embedBuild (process_transcript t) with
    | error e =>
      simp [process_video, create_vector_store, hf, hb,
        Except.isOk, Except.toBool]
    | ok u =>
      simp [process_video, create_vector_store, setup_chain, hf, hb,
        is_ready, Except.isOk, Except.toBool]

/-- Invariant of `run_ingestions`: the tracked boolean equals readiness. -/
theorem run_ingestions_invariant (env : Env) (vids : List String)
    (start : RAGState × Bool) (h : is_ready start.1 = start.2) :
    is_ready (run_ingestions env start vids).1 =
      (run_ingestions env start vids).2 := by
  induction vids generalizing start with
  | nil => exact h
  | cons v rest ih =>
    have hstep :
        run_ingestions env start (v :: rest) =
          run_ingestions env
            ((process_video env start.1 v).1,
             start.2 || (process_video env start.1 v).2.isOk) rest := rfl
    rw [hstep]
    apply ih
    simp only [is_ready_after_process, h]

/-- Membership through a stable scored insertion. -/
theorem mem_insertByScore (x p : Int × Document)
    (l : List (Int × Document)) (h : x ∈ insertByScore p l) :
    x = p ∨ x ∈ l := by
  induction l with
  | nil => simpa [insertByScore] using h
  | cons q rest ih =>
    unfold insertByScore at h
    by_cases hle : p.1 ≤ q.1
    · simp only [hle, if_true, List.mem_cons] at h
      rcases h with h | h
      · exact Or.inr (by simp [h])
      · rcases ih h with h1 | h1
        · exact Or.inl h1
        · exact Or.inr (by simp [h1])
    · simp only [hle, if_false, List.mem_cons] at h
      rcases h with h | h | h
      · exact Or.inl h
      · exact Or.inr (by simp [h])
      · exact Or.inr (by simp [h])

/-- Membership through the ranking fold. -/
theorem mem_rank_fold (x : Int × Document)
    (l acc : List (Int × Document))
    (h : x ∈ l.foldl (fun a p => insertByScore p a) acc) :
    x ∈ acc ∨ x ∈ l := by
  induction l generalizing acc with
  | nil => exact Or.inl h
  | cons p rest ih =>
    rcases ih (insertByScore p acc) (by simpa using h) with h1 | h1
    · rcases mem_insertByScore x p acc h1 with h2 | h2
      · exact Or.inr (by simp [h2])
      · exact Or.inl h2
    · exact Or.inr (by simp [h1])

/-- Every document returned by a similarity search is one of the indexed
documents. -/
theorem mem_similarity_search (score : String → Int)
    (docs : List Document) (k : Nat) (d : Document)
    (h : d ∈ similarity_search score docs k) : d ∈ docs := by
  unfold similarity_search at h
  have h1 := List.mem_of_mem_take h
  rcases List.mem_map.mp h1 with ⟨p, hp, hpd⟩
  have h2 : p ∈ docs.map (fun d => (score d.page_content, d)) := by
    rcases mem_rank_fold p _ [] hp with h3 | h3
    · simp at h3
    · exact h3
  rcases List.mem_map.mp h2 with ⟨d0, hd0, hpe⟩
  rw [← hpe] at hpd
  rw [← hpd]
  exact hd0

/-- Short inputs need no window splitting. -/
theorem windowsGo_short (fuel : Nat) (cs : List Char)
    (h : cs.length ≤ 1000) : windowsGo fuel cs = [cs] := by
  cases fuel with
  | zero => rfl
  | succ n => simp [windowsGo, h]

/-- Rebuilding a string from its character list is the identity. -/
theorem string_mk_toList (t : String) : String.mk t.toList = t := by
  cases t
  rfl

/-- The wrapped fetch-failure message never coincides with the fixed
transcripts-disabled message (their first characters differ). -/
theorem wrapped_ne_disabled_msg (m : String) :
    "Failed to fetch transcript: " ++ m ≠
      "Transcripts are disabled for this video" := by
  intro h
  have h2 := congrArg String.data h
  rw [String.data_append] at h2
  have h3 : "Failed to fetch transcript: ".data =
      'F' :: "ailed to fetch transcript: ".data := rfl
  have h4 : "Transcripts are disabled for this video".data =
      'T' :: "ranscripts are disabled for this video".data := rfl
  rw [h3, h4] at h2
  simp at h2

/-! The claims. -/

/-- C1: an ingestion attempt that fails at any step (transcript fetch,
chunking, or embedding/index build) leaves the observable session state
unchanged: `current_video_id` is the same value and `is_ready` returns the
same boolean as before the failed `process_video` call. -/
theorem failed_ingestion_preserves_session (env : Env) (s : RAGState)
    (vid : String) (h : (process_video env s vid).2.isOk = false) :
    (process_video env s vid).1.current_video_id = s.current_video_id ∧
    is_ready (process_video env s vid).1 = is_ready s := by
  rw [process_video_fail_eq env s vid h]
  exact ⟨rfl, rfl⟩

/-- Witness for C1: a concrete ingestion whose embedding/index build fails
leaves `current_video_id` and readiness unchanged. -/
theorem failed_ingestion_preserves_session_witness :
    (process_video env_embed_fail init_state "abc12345678").2.isOk = false ∧
    ((process_video env_embed_fail init_state "abc12345678").1.current_video_id
        = init_state.current_video_id ∧
      is_ready (process_video env_embed_fail init_state "abc12345678").1
        = is_ready init_state) :=
  ⟨by decide, failed_ingestion_preserves_session env_embed_fail init_state
    "abc12345678" (by decide)⟩

/-- C2: starting from a freshly initialized service, `is_ready` is false
immediately after initialization, and along every sequence of
`process_video` calls it returns true exactly when at least one of the
calls so far has succeeded. -/
theorem readiness_iff_some_success (env : Env) (vids : List String) :
    is_ready init_state = false ∧
    is_ready (run_ingestions env (init_state, false) vids).1 =
      (run_ingestions env (init_state, false) vids).2 :=
  ⟨rfl, run_ingestions_invariant env vids (init_state, false) rfl⟩

/-- C6: the chunker maps the empty string to the empty passage sequence
(without raising an error), and every non-empty string shorter than the
1000-character chunk size to exactly one passage equal to the input. -/
theorem chunker_boundary (t : String) (h1 : t ≠ "") (h2 : t.length < 1000) :
    split_text "" = [] ∧ split_text t = [t] := by
  refine ⟨rfl, ?_⟩
  have hne : t.toList ≠ [] := by
    intro h0
    apply h1
    rw [← string_mk_toList t, h0]
  have hlen0 : ¬ t.toList.length = 0 :=
    fun h0 => hne (List.length_eq_zero.mp h0)
  have hle : t.toList.length ≤ 1000 := by
    have : t.toList.length = t.length := rfl
    omega
  unfold split_text windows
  rw [if_neg hlen0, windowsGo_short _ _ hle]
  simp [string_mk_toList]

/-- Witness for C6 at the spec's scenario-1 transcript. -/
theorem chunker_boundary_witness :
    "cats are great pets cats purr" ≠ "" ∧
    "cats are great pets cats purr".length < 1000 ∧
    (split_text "" = [] ∧
      split_text "cats are great pets cats purr" =
        ["cats are great pets cats purr"]) :=
  ⟨by decide, by decide, chunker_boundary _ (by decide) (by decide)⟩

/-- C8: when the provider returns caption snippets, `fetch_transcript`
returns the concatenation of all snippet texts in their returned order,
joined with single spaces, as one string. -/
theorem fetch_transcript_joins_snippets (env : Env) (vid : String)
    (l : List Snippet) (h : env.providerFetch vid = .snippets l) :
    fetch_transcript env vid =
      .ok (String.intercalate " " (l.map Snippet.text)) := by
  unfold fetch_transcript
  rw [h]

/-- Witness for C8: two snippets are joined with a single space. -/
theorem fetch_transcript_joins_snippets_witness :
    env_two.providerFetch "vid" =
      .snippets [{ text := "hello" }, { text := "world" }] ∧
    fetch_transcript env_two "vid" =
      .ok (String.intercalate " "
        (([{ text := "hello" }, { text := "world" }] : List Snippet).map
          Snippet.text)) ∧
    fetch_transcript env_two "vid" = .ok "hello world" :=
  ⟨rfl, fetch_transcript_joins_snippets env_two "vid" _ rfl, rfl⟩

/-- C9: `fetch_transcript` fails with the transcripts-disabled condition
exactly when the provider reports captions administratively disabled, and
on every other provider failure fails with a fetch-failed error carrying
the provider's original message; each outcome is the immediate translation
of the single provider response, with no retry. -/
theorem fetch_transcript_error_taxonomy (env : Env) (vid msg : String) :
    (fetch_transcript env vid =
        .error "Transcripts are disabled for this video"
      ↔ env.providerFetch vid = .disabled) ∧
    (env.providerFetch vid = .failure msg →
      fetch_transcript env vid =
        .error ("Failed to fetch transcript: " ++ msg)) := by
  constructor
  · cases hp : env.providerFetch vid with
    | snippets l => simp [fetch_transcript, hp]
    | disabled => simp [fetch_transcript, hp]
    | failure m =>
      simp [fetch_transcript, hp]
      exact wrapped_ne_disabled_msg m
  · intro hp
    simp [fetch_transcript, hp]

/-- Witness for C9: the disabled case and a concrete provider failure. -/
theorem fetch_transcript_error_taxonomy_witness :
    (fetch_transcript env_disabled "v" =
        .error "Transcripts are disabled for this video"
      ↔ env_disabled.providerFetch "v" = .disabled) ∧
    (env_provider_fail.providerFetch "v" = .failure "no element found" ∧
      fetch_transcript env_provider_fail "v" =
        .error ("Failed to fetch transcript: " ++ "no element found")) :=
  ⟨(fetch_transcript_error_taxonomy env_disabled "v" "x").1,
   rfl,
   (fetch_transcript_error_taxonomy env_provider_fail "v"
      "no element found").2 rfl⟩

/-- C3: after a successful ingestion of video A followed by a successful
ingestion of video B, the session holds exactly the index built from B's
transcript chunks: the old vector index is discarded wholesale, the
rebuilt chain's retriever is bound to B's index, and every passage any
subsequent question retrieves is one of B's chunks. -/
theorem reingestion_reads_only_new_index (env : Env) (s0 sA sB : RAGState)
    (vidA vidB tB q : String) (rA rB : ProcessResult) (d : Document)
    (_hA : process_video env s0 vidA = (sA, .ok rA))
    (hB : process_video env sA vidB = (sB, .ok rB))
    (ht : fetch_transcript env vidB = .ok tB) :
    sB.vector_store = some { docs := process_transcript tB } ∧
    sB.chain =
      some { retriever := as_retriever { docs := process_transcript tB } } ∧
    (d ∈ retrieved_docs env sB q → d ∈ process_transcript tB) := by
  obtain ⟨t2, ht2, hb, hsB, hrB⟩ := process_video_ok_state env sA sB vidB rB hB
  rw [ht2] at ht
  injection ht with htt
  subst htt
  subst hsB
  refine ⟨rfl, rfl, ?_⟩
  intro hd
  simp only [retrieved_docs] at hd
  exact mem_similarity_search _ _ _ _ hd

/-- Witness for C3: ingest `"A"`, then `"B"`; the state reads only from
B's chunk. -/
theorem reingestion_reads_only_new_index_witness :
    process_video env_ok init_state "A" = (sA_w, .ok rA_w) ∧
    process_video env_ok sA_w "B" = (sB_w, .ok rB_w) ∧
    fetch_transcript env_ok "B" = .ok "B" ∧
    (sB_w.vector_store = some { docs := process_transcript "B" } ∧
     sB_w.chain =
       some { retriever := as_retriever { docs := process_transcript "B" } } ∧
     (({ page_content := "B" } : Document) ∈
          retrieved_docs env_ok sB_w "what do cats do?" →
        ({ page_content := "B" } : Document) ∈ process_transcript "B")) :=
  ⟨rfl, rfl, rfl,
   reingestion_reads_only_new_index env_ok init_state sA_w sB_w "A" "B" "B"
     "what do cats do?" rA_w rB_w { page_content := "B" } rfl rfl rfl⟩

/-- C4: a question asked while no video has been processed yields the
distinct not-ready client error (status 400 with the fixed detail), and
the 400 outcome occurs exactly in the not-ready state; a ready-state query
yields 200 or, on an internal failure, 500 — never 400 — so the not-ready
condition is distinguishable from an internal failure during a ready
query. -/
theorem not_ready_distinct_from_internal (env : Env) (s : RAGState)
    (q : String) :
    (is_ready s = false →
      chat env s q = (400,
        "No video has been processed yet. Please process a video first using /process-video endpoint.")) ∧
    (is_ready s = true →
      (chat env s q).1 = 200 ∨ (chat env s q).1 = 500) ∧
    ((chat env s q).1 = 400 ↔ is_ready s = false) := by
  cases hr : is_ready s with
  | false =>
    refine ⟨fun _ => by simp [chat, hr], ?_, by simp [chat, hr]⟩
    intro h
    simp at h
  | true =>
    refine ⟨?_, fun _ => ?_, ?_⟩
    · intro h
      simp at h
    · cases hask : ask_question env s q with
      | ok a => exact Or.inl (by simp [chat, hr, hask])
      | error e => exact Or.inr (by simp [chat, hr, hask])
    · cases hask : ask_question env s q with
      | ok a => simp [chat, hr, hask]
      | error e => simp [chat, hr, hask]

/-- Witness for C4: asking before any ingestion gives the 400 not-ready
response. -/
theorem not_ready_distinct_from_internal_witness :
    is_ready init_state = false ∧
    chat env_ok init_state "hello" = (400,
      "No video has been processed yet. Please process a video first using /process-video endpoint.") :=
  ⟨rfl, (not_ready_distinct_from_internal env_ok init_state "hello").1 rfl⟩

/-- C5 counterexample: the ingestion write into session state is not one
atomic pointer swap.  After the first of the three successive field
assignments the state pairs video B's new vector store with video A's old
retriever and chain — a partially-updated triple distinct from both the
pre-state and the post-state, while the claim says no such intermediate
state exists. -/
theorem ingestion_not_single_swap :
    (ingestionWriteStates stateA chunksB).head? = some midB ∧
    midB.vector_store ≠ stateA.vector_store ∧
    midB.retriever = stateA.retriever ∧
    midB.chain = stateA.chain ∧
    midB ≠ stateA ∧
    midB ≠ postB ∧
    create_vector_store env_ok stateA chunksB = .ok postB :=
  ⟨rfl, by decide, rfl, rfl, by decide, by decide, rfl⟩

/-- C5 amended: ingestion installs the new vector store, retriever and
chain by three successive field assignments rather than a single pointer
swap, so a state mixing the new store with the old chain is observable
mid-ingestion; however at every intermediate point the `chain` field — the
only session state a query dereferences — is either the old chain or the
new chain bound to the new index, so a query never observes a chain mixing
the two indexes. -/
theorem ingestion_chain_old_or_new (s : RAGState) (chunks : List Document)
    (t : RAGState) (h : t ∈ ingestionWriteStates s chunks) :
    t.chain = s.chain ∨
      t.chain = some { retriever := as_retriever { docs := chunks } } := by
  simp only [ingestionWriteStates, List.mem_cons,
    List.not_mem_nil, or_false] at h
  rcases h with h | h | h <;> subst h <;>
    simp [setup_chain, as_retriever]

/-- Witness for C5's amended claim at the first intermediate write state. -/
theorem ingestion_chain_old_or_new_witness :
    midB ∈ ingestionWriteStates stateA chunksB ∧
    (midB.chain = stateA.chain ∨
      midB.chain = some { retriever := as_retriever { docs := chunksB } }) :=
  ⟨by decide, ingestion_chain_old_or_new stateA chunksB midB (by decide)⟩

/-- C7: for a question asked in the ready state produced by a successful
ingestion, the returned answer is exactly the generation model's raw text
output (unmodified) on the fixed prompt template instantiated with the
literal question and a context formed by joining the texts of the k = 2
retrieved passages with a blank-line separator in retrieval order. -/
theorem answer_chain_pipeline (env : Env) (s0 s : RAGState)
    (vid tT q answer : String) (r : ProcessResult)
    (h : process_video env s0 vid = (s, .ok r))
    (ht : fetch_transcript env vid = .ok tT)
    (hllm : env.llm (prompt_format
        (format_docs
          (similarity_search (env.score q) (process_transcript tT) 2)) q)
      = .ok answer) :
    ask_question env s q = .ok answer := by
  obtain ⟨t2, ht2, hb, hs, hr⟩ := process_video_ok_state env s0 s vid r h
  rw [ht2] at ht
  injection ht with htt
  subst htt
  subst hs
  simp [ask_question, invoke, as_retriever, str_output_parse, hllm]

/-- Witness for C7: the fixed answer of `env_ok`'s generation model is
returned unmodified. -/
theorem answer_chain_pipeline_witness :
    process_video env_ok init_state "A" = (sA_w, .ok rA_w) ∧
    fetch_transcript env_ok "A" = .ok "A" ∧
    env_ok.llm (prompt_format
        (format_docs
          (similarity_search (env_ok.score "q") (process_transcript "A") 2))
        "q") = .ok "answer" ∧
    ask_question env_ok sA_w "q" = .ok "answer" :=
  ⟨rfl, rfl, rfl,
   answer_chain_pipeline env_ok init_state sA_w "A" "A" "q" "answer" rA_w
     rfl rfl rfl⟩

/-- C10: every successful `process_video` returns a result whose message
is exactly "Video processed successfully", whose `video_id` equals the
argument, whose `chunks_count` equals the number of passages the chunker
produced from the fetched transcript, and whose additional
`transcript_length` field equals the character length of the fetched
transcript. -/
theorem process_video_result_fields (env : Env) (s0 s : RAGState)
    (vid tT : String) (r : ProcessResult)
    (h : process_video env s0 vid = (s, .ok r))
    (ht : fetch_transcript env vid = .ok tT) :
    r.message = "Video processed successfully" ∧
    r.video_id = vid ∧
    r.chunks_count = (process_transcript tT).length ∧
    r.transcript_length = tT.length := by
  obtain ⟨t2, ht2, hb, hs, hr⟩ := process_video_ok_state env s0 s vid r h
  rw [ht2] at ht
  injection ht with htt
  subst htt
  subst hr
  exact ⟨rfl, rfl, rfl, rfl⟩

/-- Witness for C10: the two-snippet transcript "hello world" gives one
chunk and transcript length 11. -/
theorem process_video_result_fields_witness :
    process_video env_two init_state "xyz" = (sHW, .ok rHW) ∧
    fetch_transcript env_two "xyz" = .ok "hello world" ∧
    (rHW.message = "Video processed successfully" ∧
      rHW.video_id = "xyz" ∧
      rHW.chunks_count = (process_transcript "hello world").length ∧
      rHW.transcript_length = "hello world".length) :=
  ⟨rfl, rfl,
   process_video_result_fields env_two init_state sHW "xyz" "hello world"
     rHW rfl rfl⟩

end ChatTube
